import Mathlib

/-!
Verification of the Dataset Quality Scoring & Persona Synthesis Engine.

This file gives a shallow embedding, over exact rational arithmetic, of the
scoring core implemented in `src/agents/tools.py` and the pipeline control
flow of `src/agents/enhanced_validation_agent.py`:

* the completeness (missing-value) and duplicate analyzers' piecewise
  integrity-score formulas;
* the Data Integrity Score and Overall Utility Score synthesis
  (`UtilityScoreSynthesizerTool`);
* the persona tagging rule engine (`DatasetPersonaTaggerTool`) with its ten
  static rules;
* the contextual scoring engine (`ContextualScoringEngineTool`) with its six
  static lenses;
* the readiness assessment and the more-than-half-failed pipeline abort.

Python floats are modelled by `ℚ`; `round(x, n)` is modelled by rounding
`10^n·x` to the nearest integer.
-/

namespace DatasetScoring

/-- `max(0.0, min(100.0, x))`, the clamp used throughout the scoring code. -/
def clamp100 (x : ℚ) : ℚ := max 0 (min 100 x)

/-- Model of Python `round(x, 1)`: round `10·x` to the nearest integer, then
divide by 10. -/
def roundTo1 (x : ℚ) : ℚ := (round (10 * x) : ℤ) / 10

/-- Model of Python `round(x, 3)`: round `1000·x` to the nearest integer, then
divide by 1000. -/
def roundTo3 (x : ℚ) : ℚ := (round (1000 * x) : ℤ) / 1000

lemma clamp100_nonneg (x : ℚ) : 0 ≤ clamp100 x := le_max_left 0 _

lemma clamp100_le (x : ℚ) : clamp100 x ≤ 100 :=
  max_le (by norm_num) (min_le_left 100 x)

lemma round_mono {a b : ℚ} (h : a ≤ b) : round a ≤ round b := by
  rw [round_eq, round_eq]
  exact Int.floor_mono (by linarith)

lemma clamp100_of_le {x : ℚ} (h0 : 0 ≤ x) (h1 : x ≤ 100) : clamp100 x = x := by
  unfold clamp100
  rw [min_eq_right h1, max_eq_right h0]

lemma roundTo1_clamp100_nonneg (x : ℚ) : 0 ≤ roundTo1 (clamp100 x) := by
  have h0 : (0 : ℤ) ≤ round (10 * clamp100 x) := by
    have := round_mono (mul_nonneg (by norm_num : (0:ℚ) ≤ 10) (clamp100_nonneg x))
    simpa using this
  unfold roundTo1
  exact div_nonneg (by exact_mod_cast h0) (by norm_num)

lemma roundTo1_clamp100_le (x : ℚ) : roundTo1 (clamp100 x) ≤ 100 := by
  have h1 : round (10 * clamp100 x) ≤ (1000 : ℤ) := by
    have hx : (10 : ℚ) * clamp100 x ≤ 1000 := by
      have := clamp100_le x
      linarith
    have := round_mono hx
    simpa using this
  unfold roundTo1
  rw [div_le_iff₀ (by norm_num : (0:ℚ) < 10)]
  exact_mod_cast (by linarith : round (10 * clamp100 x) ≤ (1000 : ℤ))

/-! ## Foundational analyzers

Piecewise integrity-score formulas of `MissingValueAnalyzerTool.execute`
(tools.py lines 763-772) and `DuplicateRecordDetectorTool.execute`
(tools.py lines 919-928), as functions of the badness percentage. -/

/-- Completeness integrity score from the overall missing-value percentage. -/
def missingIntegrityScore (p : ℚ) : ℚ :=
  if p = 0 then 100
  else if p ≤ 1 then 95
  else if p ≤ 5 then 85 - (p - 1) * 2
  else if p ≤ 20 then 77 - (p - 5) * 3
  else max 20 (32 - (p - 20) * 0.6)

/-- Duplicate integrity score from the full-row duplicate percentage. -/
def dupIntegrityScore (p : ℚ) : ℚ :=
  if p = 0 then 100
  else if p ≤ 1 then 95 - p * 2
  else if p ≤ 5 then 90 - p * 3
  else if p ≤ 20 then 75 - (p - 5) * 2
  else max 10 (45 - (p - 20) * 1.5)

lemma dupIntegrityScore_antitone {p₁ p₂ : ℚ} (h0 : 0 ≤ p₁) (h12 : p₁ ≤ p₂) :
    dupIntegrityScore p₂ ≤ dupIntegrityScore p₁ := by
  unfold dupIntegrityScore
  by_cases e2 : p₂ = 0
  · have e1 : p₁ = 0 := le_antisymm (e2 ▸ h12) h0
    simp [e1, e2]
  · by_cases e1 : p₁ = 0
    · rw [if_neg e2, if_pos e1]
      split_ifs <;>
        first
          | linarith
          | (apply max_le <;> linarith)
    · rw [if_neg e2, if_neg e1]
      have h0' : 0 < p₁ := lt_of_le_of_ne h0 (Ne.symm e1)
      split_ifs <;>
        first
          | linarith
          | (apply max_le <;> linarith)
          | (exact max_le_max (le_refl 10) (by linarith))

lemma missingIntegrityScore_antitone {p₁ p₂ : ℚ} (h0 : 0 ≤ p₁) (h12 : p₁ ≤ p₂) :
    missingIntegrityScore p₂ ≤ missingIntegrityScore p₁ := by
  unfold missingIntegrityScore
  by_cases e2 : p₂ = 0
  · have e1 : p₁ = 0 := le_antisymm (e2 ▸ h12) h0
    simp [e1, e2]
  · by_cases e1 : p₁ = 0
    · rw [if_neg e2, if_pos e1]
      split_ifs <;>
        first
          | linarith
          | (apply max_le <;> linarith)
    · rw [if_neg e2, if_neg e1]
      have h0' : 0 < p₁ := lt_of_le_of_ne h0 (Ne.symm e1)
      split_ifs <;>
        first
          | linarith
          | (apply max_le <;> linarith)
          | (exact max_le_max (le_refl 20) (by linarith))

/-- C9: both analyzer scores are non-increasing in their badness percentage.
For all percentages `0 ≤ p₁ ≤ p₂`, the duplicate analyzer's integrity score at
`p₂` is at most its score at `p₁`, and likewise for the completeness
(missing-value) analyzer's integrity score. -/
theorem C9_analyzer_scores_antitone (p₁ p₂ : ℚ) (h0 : 0 ≤ p₁) (h12 : p₁ ≤ p₂) :
    dupIntegrityScore p₂ ≤ dupIntegrityScore p₁ ∧
    missingIntegrityScore p₂ ≤ missingIntegrityScore p₁ :=
  ⟨dupIntegrityScore_antitone h0 h12, missingIntegrityScore_antitone h0 h12⟩

/-- Witness for C9 at the concrete pair `p₁ = 3`, `p₂ = 25`. -/
theorem C9_analyzer_scores_antitone_witness :
    (0 : ℚ) ≤ 3 ∧ (3 : ℚ) ≤ 25 ∧
    (dupIntegrityScore 25 ≤ dupIntegrityScore 3 ∧
     missingIntegrityScore 25 ≤ missingIntegrityScore 3) :=
  ⟨by norm_num, by norm_num,
   C9_analyzer_scores_antitone 3 25 (by norm_num) (by norm_num)⟩

/-! ## Utility Score Synthesizer

`UtilityScoreSynthesizerTool` (tools.py lines 3682-3839).  The tool reads
three analyzer scores out of `analysis_results` (each defaulting to 100 when
the analysis, or its score key, is absent), blends them into the Data
Integrity Score, takes the highest contextual score (50 when none were
computed), blends the two into the Overall Utility Score and reports both
rounded to one decimal. -/

/-- The three analyzer scores the synthesizer extracts from
`analysis_results`: `missing_value_analysis.integrity_score`,
`type_consistency_analysis.consistency_score`,
`duplicate_analysis.integrity_score`.  `none` models an absent entry (or an
entry without the score key, which the source's `.get(..., 100.0)` treats
identically). -/
structure AnalysisResults where
  missingIntegrity : Option ℚ
  consistencyScore : Option ℚ
  duplicateIntegrity : Option ℚ

/-- `_calculate_data_integrity_score` (tools.py lines 3756-3782). -/
def calculateDataIntegrityScore (r : AnalysisResults) : ℚ :=
  let completeness := r.missingIntegrity.getD 100
  let consistency := r.consistencyScore.getD 100
  let dup := r.duplicateIntegrity.getD 100
  clamp100 (0.5 * completeness + 0.3 * consistency + 0.2 * dup)

/-- `_synthesize_overall_score` (tools.py lines 3833-3839). -/
def synthesizeOverallScore (di hc : ℚ) : ℚ := clamp100 (0.7 * di + 0.3 * hc)

/-- The highest contextual score picked by `_identify_maximum_potential`
(tools.py lines 3784-3831): the maximal value in the map, or 50.0 when the
map is empty. -/
def highestContextualScore (cs : List (String × ℚ)) : ℚ :=
  match cs with
  | [] => 50
  | x :: rest => rest.foldl (fun acc y => max acc y.2) x.2

/-- The synthesizer's result fields relevant here (tools.py lines 3718-3737):
`overall_utility_score` and `data_integrity_score` are reported rounded to
one decimal. -/
structure SynthesisOutput where
  success : Bool
  overallUtilityScore : ℚ
  dataIntegrityScore : ℚ

/-- `UtilityScoreSynthesizerTool.execute` (tools.py lines 3682-3743),
restricted to the numeric score fields. -/
def synthesizerExecute (r : AnalysisResults) (cs : List (String × ℚ)) :
    SynthesisOutput :=
  let di := calculateDataIntegrityScore r
  let highest := highestContextualScore cs
  { success := true
    overallUtilityScore := roundTo1 (synthesizeOverallScore di highest)
    dataIntegrityScore := roundTo1 di }

/-- C2: the Data Integrity Score is `0.5·completeness + 0.3·consistency +
0.2·duplicate`, each component defaulting to 100 when its analyzer output is
absent, clamped to `[0, 100]`. -/
theorem C2_data_integrity_formula (r : AnalysisResults) :
    ∃ c t d : ℚ,
      (r.missingIntegrity = some c ∨ r.missingIntegrity = none ∧ c = 100) ∧
      (r.consistencyScore = some t ∨ r.consistencyScore = none ∧ t = 100) ∧
      (r.duplicateIntegrity = some d ∨ r.duplicateIntegrity = none ∧ d = 100) ∧
      calculateDataIntegrityScore r = max 0 (min 100 (0.5 * c + 0.3 * t + 0.2 * d)) ∧
      0 ≤ calculateDataIntegrityScore r ∧ calculateDataIntegrityScore r ≤ 100 := by
  refine ⟨r.missingIntegrity.getD 100, r.consistencyScore.getD 100,
    r.duplicateIntegrity.getD 100, ?_, ?_, ?_, rfl,
    clamp100_nonneg _, clamp100_le _⟩
  · cases h : r.missingIntegrity <;> simp [h]
  · cases h : r.consistencyScore <;> simp [h]
  · cases h : r.duplicateIntegrity <;> simp [h]

/-- C4: evaluation of the code at the claimed scenario.  At 30% duplicate
rows the duplicate analyzer's formula yields an integrity score of 30.0 (not
a score below 20), and with perfect completeness and consistency the Data
Integrity Score is `0.5·100 + 0.3·100 + 0.2·30 = 86.0`, which is not below
84.  This contradicts the tool's own `score_breakdown` documentation
(`">20% duplicates (Score: <15)"`, tools.py line 962). -/
theorem C4_duplicate_thirty_percent_eval :
    dupIntegrityScore 30 = 30 ∧
    calculateDataIntegrityScore ⟨some 100, some 100, some (dupIntegrityScore 30)⟩ = 86 ∧
    ¬ dupIntegrityScore 30 < 20 ∧
    ¬ calculateDataIntegrityScore ⟨some 100, some 100, some (dupIntegrityScore 30)⟩ < 84 := by
  norm_num [dupIntegrityScore, calculateDataIntegrityScore, clamp100]

/-! Auxiliary facts about the fold computing the maximal contextual score. -/

lemma le_foldlMax (init : ℚ) (l : List (String × ℚ)) :
    init ≤ l.foldl (fun acc y => max acc y.2) init := by
  induction l generalizing init with
  | nil => exact le_refl _
  | cons x xs ih => exact le_trans (le_max_left _ _) (ih (max init x.2))

lemma foldlMax_le_of_mem {l : List (String × ℚ)} {p : String × ℚ}
    (hp : p ∈ l) (init : ℚ) : p.2 ≤ l.foldl (fun acc y => max acc y.2) init := by
  induction l generalizing init with
  | nil => cases hp
  | cons x xs ih =>
    rcases List.mem_cons.mp hp with h | h
    · subst h
      exact le_trans (le_max_right _ _) (le_foldlMax _ _)
    · exact ih h _

lemma foldlMax_mem (init : ℚ) (l : List (String × ℚ)) :
    l.foldl (fun acc y => max acc y.2) init = init ∨
    ∃ p ∈ l, l.foldl (fun acc y => max acc y.2) init = p.2 := by
  induction l generalizing init with
  | nil => exact Or.inl rfl
  | cons x xs ih =>
    rcases ih (max init x.2) with h | ⟨p, hp, hval⟩
    · by_cases hc : init ≤ x.2
      · exact Or.inr ⟨x, List.mem_cons_self x xs, by
          simpa [max_eq_right hc] using h⟩
      · exact Or.inl (by simpa [max_eq_left (le_of_not_le hc)] using h)
    · exact Or.inr ⟨p, List.mem_cons_of_mem x hp, hval⟩

lemma highestContextualScore_is_max {cs : List (String × ℚ)} (h : cs ≠ []) :
    (∃ p ∈ cs, highestContextualScore cs = p.2) ∧
    ∀ p ∈ cs, p.2 ≤ highestContextualScore cs := by
  match cs with
  | [] => exact absurd rfl h
  | x :: rest =>
    constructor
    · rcases foldlMax_mem x.2 rest with h0 | ⟨p, hp, hval⟩
      · exact ⟨x, List.mem_cons_self x rest, by simpa [highestContextualScore] using h0⟩
      · exact ⟨p, List.mem_cons_of_mem x hp, by simpa [highestContextualScore] using hval⟩
    · intro p hp
      rcases List.mem_cons.mp hp with h0 | h0
      · subst h0
        exact le_foldlMax _ _
      · exact foldlMax_le_of_mem h0 _

/-- C1 counterexample: the claim read against the synthesizer's reported
(1-decimal rounded) `data_integrity_score` field fails.  With analyzer
scores 100 / 94 / 74.8 (0% missing, two type issues in one column, 5.1%
duplicate rows) the internal integrity score is 93.16, the reported one
93.2; with a single contextual score 50.1 the reported overall score is
`round(80.242, 1) = 80.2`, while
`round(0.7·93.2 + 0.3·50.1, 1) = round(80.27, 1) = 80.3`. -/
theorem C1_reported_integrity_counterexample :
    (synthesizerExecute ⟨some 100, some 94, some 74.8⟩
        [("general_purpose_score", 50.1)]).overallUtilityScore = 80.2 ∧
    roundTo1 (clamp100
      (0.7 * (synthesizerExecute ⟨some 100, some 94, some 74.8⟩
          [("general_purpose_score", 50.1)]).dataIntegrityScore +
        0.3 * highestContextualScore [("general_purpose_score", 50.1)])) = 80.3 ∧
    (synthesizerExecute ⟨some 100, some 94, some 74.8⟩
        [("general_purpose_score", 50.1)]).overallUtilityScore ≠
      roundTo1 (clamp100
        (0.7 * (synthesizerExecute ⟨some 100, some 94, some 74.8⟩
            [("general_purpose_score", 50.1)]).dataIntegrityScore +
          0.3 * highestContextualScore [("general_purpose_score", 50.1)])) := by
  have hdi : calculateDataIntegrityScore ⟨some 100, some 94, some 74.8⟩ = 93.16 := by
    unfold calculateDataIntegrityScore
    simp only [Option.getD_some]
    rw [show (0.5 * (100 : ℚ) + 0.3 * 94 + 0.2 * 74.8) = 93.16 by norm_num]
    exact clamp100_of_le (by norm_num) (by norm_num)
  have hhc : highestContextualScore [("general_purpose_score", (50.1 : ℚ))] = 50.1 := rfl
  have hov : (synthesizerExecute ⟨some 100, some 94, some 74.8⟩
      [("general_purpose_score", 50.1)]).overallUtilityScore = 80.2 := by
    show roundTo1 (synthesizeOverallScore
      (calculateDataIntegrityScore ⟨some 100, some 94, some 74.8⟩)
      (highestContextualScore [("general_purpose_score", 50.1)])) = 80.2
    rw [hdi, hhc]
    unfold synthesizeOverallScore
    rw [show (0.7 * (93.16 : ℚ) + 0.3 * 50.1) = 80.242 by norm_num]
    rw [clamp100_of_le (by norm_num) (by norm_num)]
    unfold roundTo1
    rw [show (10 * (80.242 : ℚ)) = 802.42 by norm_num, round_eq]
    norm_num
  have hdirep : (synthesizerExecute ⟨some 100, some 94, some 74.8⟩
      [("general_purpose_score", 50.1)]).dataIntegrityScore = 93.2 := by
    show roundTo1 (calculateDataIntegrityScore ⟨some 100, some 94, some 74.8⟩) = 93.2
    rw [hdi]
    unfold roundTo1
    rw [show (10 * (93.16 : ℚ)) = 931.6 by norm_num, round_eq]
    norm_num
  have hrhs : roundTo1 (clamp100 (0.7 * (93.2 : ℚ) + 0.3 * 50.1)) = 80.3 := by
    rw [show (0.7 * (93.2 : ℚ) + 0.3 * 50.1) = 80.27 by norm_num]
    rw [clamp100_of_le (by norm_num) (by norm_num)]
    unfold roundTo1
    rw [show (10 * (80.27 : ℚ)) = 802.7 by norm_num, round_eq]
    norm_num
  refine ⟨hov, ?_, ?_⟩
  · rw [hdirep, hhc]
    exact hrhs
  · rw [hov, hdirep, hhc, hrhs]
    norm_num

/-- C1 amended: for every synthesizer run with a non-empty contextual score
map, the reported `overall_utility_score` equals
`round(clamp(0.7·D + 0.3·max(contextual_scores)), 1)` where `D` is the
synthesizer's internally computed (unrounded) Data Integrity Score; the
blended value is clamped to `[0,100]` before rounding, the reported score
lies in `[0,100]`, and the highest contextual score is attained by, and
bounds, the contextual scores. -/
theorem C1_overall_score_formula (r : AnalysisResults)
    (cs : List (String × ℚ)) (h : cs ≠ []) :
    (synthesizerExecute r cs).overallUtilityScore =
      roundTo1 (clamp100 (0.7 * calculateDataIntegrityScore r +
        0.3 * highestContextualScore cs)) ∧
    0 ≤ (synthesizerExecute r cs).overallUtilityScore ∧
    (synthesizerExecute r cs).overallUtilityScore ≤ 100 ∧
    (∃ p ∈ cs, highestContextualScore cs = p.2) ∧
    ∀ p ∈ cs, p.2 ≤ highestContextualScore cs := by
  obtain ⟨hmem, hmax⟩ := highestContextualScore_is_max h
  exact ⟨rfl, roundTo1_clamp100_nonneg _, roundTo1_clamp100_le _, hmem, hmax⟩

/-- Witness for the amended C1 at a concrete input. -/
theorem C1_overall_score_formula_witness :
    ([("general_purpose_score", (64.2 : ℚ)), ("predictive_modeling_score", 58)] ≠
      ([] : List (String × ℚ))) ∧
    ((synthesizerExecute ⟨some 90, some 80, none⟩
        [("general_purpose_score", 64.2), ("predictive_modeling_score", 58)]).overallUtilityScore =
      roundTo1 (clamp100 (0.7 * calculateDataIntegrityScore ⟨some 90, some 80, none⟩ +
        0.3 * highestContextualScore
          [("general_purpose_score", 64.2), ("predictive_modeling_score", 58)])) ∧
    0 ≤ (synthesizerExecute ⟨some 90, some 80, none⟩
        [("general_purpose_score", 64.2), ("predictive_modeling_score", 58)]).overallUtilityScore ∧
    (synthesizerExecute ⟨some 90, some 80, none⟩
        [("general_purpose_score", 64.2), ("predictive_modeling_score", 58)]).overallUtilityScore ≤ 100 ∧
    (∃ p ∈ [("general_purpose_score", (64.2 : ℚ)), ("predictive_modeling_score", 58)],
      highestContextualScore
        [("general_purpose_score", 64.2), ("predictive_modeling_score", 58)] = p.2) ∧
    ∀ p ∈ [("general_purpose_score", (64.2 : ℚ)), ("predictive_modeling_score", 58)],
      p.2 ≤ highestContextualScore
        [("general_purpose_score", 64.2), ("predictive_modeling_score", 58)]) :=
  ⟨by decide, C1_overall_score_formula ⟨some 90, some 80, none⟩
    [("general_purpose_score", 64.2), ("predictive_modeling_score", 58)] (by decide)⟩

/-! ## Contextual Scoring Engine

`ContextualScoringEngineTool` (tools.py lines 3222-3589).  A lens score
starts at a baseline of 60; every weighted metric whose value resolves
contributes `((value − 50) / 50) · weight · 20`; triggered penalties are
subtracted and triggered bonuses added; the result is clamped to `[0, 100]`
once, at the end, and reported rounded to one decimal. -/

/-- The metrics map built by `_extract_metrics` (tools.py lines 3376-3463).
`none` models a key absent from the dict.  `balance_level` is a string and
`has_demographic_features` a boolean; every other entry is numeric. -/
structure Metrics where
  completeness : Option ℚ
  missing_percentage : Option ℚ
  consistency : Option ℚ
  type_issues_count : Option ℚ
  duplicate_percentage : Option ℚ
  duplicate_score : Option ℚ
  balance_score : Option ℚ
  imbalance_ratio : Option ℚ
  minority_class_pct : Option ℚ
  balance_level : Option String
  outlier_percentage : Option ℚ
  outlier_score : Option ℚ
  correlation_score : Option ℚ
  high_correlations_count : Option ℚ
  ml_usability_score : Option ℚ
  information_score : Option ℚ
  top_feature_contribution : Option ℚ
  useful_features_count : Option ℚ
  separability_score : Option ℚ
  sample_count : Option ℚ
  feature_count : Option ℚ
  has_demographic_features : Option Bool
  cleanliness : Option ℚ
  ml_readiness : Option ℚ

/-- Plain `metrics.get(name)` over the numeric entries of the dict.  A name
that is not a numeric metrics key resolves to `none` (the two non-numeric
keys are never referenced by a lens weight in the source). -/
def metricsGet (m : Metrics) (name : String) : Option ℚ :=
  if name = "completeness" then m.completeness
  else if name = "missing_percentage" then m.missing_percentage
  else if name = "consistency" then m.consistency
  else if name = "type_issues_count" then m.type_issues_count
  else if name = "duplicate_percentage" then m.duplicate_percentage
  else if name = "duplicate_score" then m.duplicate_score
  else if name = "balance_score" then m.balance_score
  else if name = "imbalance_ratio" then m.imbalance_ratio
  else if name = "minority_class_pct" then m.minority_class_pct
  else if name = "outlier_percentage" then m.outlier_percentage
  else if name = "outlier_score" then m.outlier_score
  else if name = "correlation_score" then m.correlation_score
  else if name = "high_correlations_count" then m.high_correlations_count
  else if name = "ml_usability_score" then m.ml_usability_score
  else if name = "information_score" then m.information_score
  else if name = "top_feature_contribution" then m.top_feature_contribution
  else if name = "useful_features_count" then m.useful_features_count
  else if name = "separability_score" then m.separability_score
  else if name = "sample_count" then m.sample_count
  else if name = "feature_count" then m.feature_count
  else if name = "cleanliness" then m.cleanliness
  else if name = "ml_readiness" then m.ml_readiness
  else none

/-- `_get_metric_value` (tools.py lines 3532-3557): the special lens-specific
transforms (each always resolves, via `.get` defaults), falling back to a
plain dict lookup. -/
def getMetricValue (m : Metrics) (name : String) : Option ℚ :=
  if name = "imbalance_presence" then
    some (min 100 ((m.imbalance_ratio.getD 1 - 1) * 10))
  else if name = "minority_completeness" then
    some (max 0 (100 - m.minority_class_pct.getD 50 * 2))
  else if name = "demographic_presence" then
    some (if m.has_demographic_features.getD false then 100 else 0)
  else if name = "bias_detectability" then
    some (min 100 ((m.imbalance_ratio.getD 1 - 1) * 15))
  else if name = "sample_diversity" then
    some (min 100 (m.feature_count.getD 0 * 5))
  else if name = "feature_richness" then
    some (min 100 (m.useful_features_count.getD 0 * 10))
  else if name = "ml_performance" then some (m.ml_usability_score.getD 0)
  else if name = "feature_importance" then some (m.information_score.getD 50)
  else if name = "noise_presence" then
    some (min 100 (m.outlier_percentage.getD 0 * 5))
  else if name = "outlier_presence" then
    some (min 100 (m.outlier_percentage.getD 0 * 3))
  else if name = "missing_patterns" then
    some (min 100 (m.missing_percentage.getD 0 * 4))
  else if name = "type_inconsistencies" then
    some (min 100 (m.type_issues_count.getD 0 * 15))
  else if name = "documentation" then some (m.consistency.getD 100)
  else if name = "size_adequacy" then
    some (min 100 (max 0 ((m.sample_count.getD 0 / 1000) * 10)))
  else if name = "feature_diversity" then
    some (min 100 (m.feature_count.getD 0 * 3))
  else if name = "reproducibility" then some (m.consistency.getD 100)
  else if name = "balance" then some (m.balance_score.getD 100)
  else metricsGet m name

/-- A penalty entry of a lens config: `{"threshold": t, "penalty": v}`. -/
structure PenaltySpec where
  name : String
  threshold : ℚ
  penalty : ℚ

/-- The trigger of a bonus entry: a numeric threshold (`{"threshold": t}`),
a boolean condition or a string condition (`{"condition": c}`). -/
inductive BonusCond
  | thresholdGT (t : ℚ)
  | boolEq (b : Bool)
  | levelEq (s : String)

/-- A bonus entry of a lens config. -/
structure BonusSpec where
  name : String
  cond : BonusCond
  bonus : ℚ

/-- A scoring lens: weighted metrics plus penalty and bonus entries
(`_define_scoring_lenses`, tools.py lines 3284-3374). -/
structure LensConfig where
  weights : List (String × ℚ)
  penalties : List PenaltySpec
  bonuses : List BonusSpec

/-- `_evaluate_penalty` (tools.py lines 3559-3571): the fixed penalty when
the named metric crosses its threshold in the bad direction, else 0. -/
def evaluatePenalty (m : Metrics) (p : PenaltySpec) : ℚ :=
  if p.name = "high_missing" then
    (if m.missing_percentage.getD 0 > p.threshold then p.penalty else 0)
  else if p.name = "severe_imbalance" then
    (if m.imbalance_ratio.getD 1 > p.threshold then p.penalty else 0)
  else if p.name = "many_duplicates" then
    (if m.duplicate_percentage.getD 0 > p.threshold then p.penalty else 0)
  else if p.name = "weak_signals" then
    (if m.ml_usability_score.getD 100 < p.threshold then p.penalty else 0)
  else if p.name = "poor_separability" then
    (if m.separability_score.getD 100 < p.threshold then p.penalty else 0)
  else 0

/-- `_evaluate_bonus` (tools.py lines 3573-3589): the fixed bonus when the
named metric crosses its threshold in the lens's favorable direction (or the
boolean / string condition holds), else 0. -/
def evaluateBonus (m : Metrics) (b : BonusSpec) : ℚ :=
  if b.name = "high_imbalance" ∨ b.name = "extreme_imbalance" ∨
      b.name = "imbalance_present" then
    (match b.cond with
      | .thresholdGT t => if m.imbalance_ratio.getD 1 > t then b.bonus else 0
      | _ => 0)
  else if b.name = "has_demographics" then
    (match b.cond with
      | .boolEq c => if m.has_demographic_features.getD false = c then b.bonus else 0
      | _ => 0)
  else if b.name = "high_outliers" then
    (match b.cond with
      | .thresholdGT t => if m.outlier_percentage.getD 0 > t then b.bonus else 0
      | _ => 0)
  else if b.name = "missing_data" then
    (match b.cond with
      | .thresholdGT t => if m.missing_percentage.getD 0 > t then b.bonus else 0
      | _ => 0)
  else if b.name = "type_issues" then
    (match b.cond with
      | .thresholdGT t => if m.type_issues_count.getD 0 > t then b.bonus else 0
      | _ => 0)
  else if b.name = "large_sample" then
    (match b.cond with
      | .thresholdGT t => if m.sample_count.getD 0 > t then b.bonus else 0
      | _ => 0)
  else if b.name = "balanced_classes" then
    (match b.cond with
      | .levelEq s => if m.balance_level.getD "" = s then b.bonus else 0
      | _ => 0)
  else 0

/-- `_calculate_lens_score` (tools.py lines 3490-3530), as the source
computes it: a running score starting at 60, mutated by the three loops,
then clamped once and rounded to one decimal. -/
def calculateLensScore (m : Metrics) (cfg : LensConfig) : ℚ :=
  let afterWeights := cfg.weights.foldl
    (fun acc w =>
      match getMetricValue m w.1 with
      | some v => acc + ((v - 50) / 50) * w.2 * 20
      | none => acc) 60
  let afterPenalties := cfg.penalties.foldl
    (fun acc p =>
      let pv := evaluatePenalty m p
      if pv > 0 then acc - pv else acc) afterWeights
  let afterBonuses := cfg.bonuses.foldl
    (fun acc b =>
      let bv := evaluateBonus m b
      if bv > 0 then acc + bv else acc) afterPenalties
  roundTo1 (clamp100 afterBonuses)

/-- The total weighted contribution of the available metrics. -/
def weightedContribution (m : Metrics) (ws : List (String × ℚ)) : ℚ :=
  (ws.map fun w =>
    match getMetricValue m w.1 with
    | some v => ((v - 50) / 50) * w.2 * 20
    | none => 0).sum

/-- The total of the triggered penalties. -/
def penaltyTotal (m : Metrics) (ps : List PenaltySpec) : ℚ :=
  (ps.map fun p =>
    let pv := evaluatePenalty m p
    if pv > 0 then pv else 0).sum

/-- The total of the triggered bonuses. -/
def bonusTotal (m : Metrics) (bs : List BonusSpec) : ℚ :=
  (bs.map fun b =>
    let bv := evaluateBonus m b
    if bv > 0 then bv else 0).sum

/-- The lens score before clamping and rounding. -/
def rawLensScore (m : Metrics) (cfg : LensConfig) : ℚ :=
  60 + weightedContribution m cfg.weights - penaltyTotal m cfg.penalties +
    bonusTotal m cfg.bonuses

lemma foldl_weights_eq (m : Metrics) (ws : List (String × ℚ)) (init : ℚ) :
    ws.foldl
      (fun acc w =>
        match getMetricValue m w.1 with
        | some v => acc + ((v - 50) / 50) * w.2 * 20
        | none => acc) init = init + weightedContribution m ws := by
  induction ws generalizing init with
  | nil => simp [weightedContribution]
  | cons x xs ih =>
    cases h : getMetricValue m x.1 with
    | none => simp [weightedContribution, List.foldl_cons, h, ih]
    | some v =>
      simp [weightedContribution, List.foldl_cons, h, ih]
      ring

lemma foldl_penalties_eq (m : Metrics) (ps : List PenaltySpec) (init : ℚ) :
    ps.foldl
      (fun acc p =>
        let pv := evaluatePenalty m p
        if pv > 0 then acc - pv else acc) init = init - penaltyTotal m ps := by
  induction ps generalizing init with
  | nil => simp [penaltyTotal]
  | cons x xs ih =>
    by_cases h : evaluatePenalty m x > 0
    · simp [penaltyTotal, List.foldl_cons, h, ih]
      ring
    · simp [penaltyTotal, List.foldl_cons, h, ih]

lemma foldl_bonuses_eq (m : Metrics) (bs : List BonusSpec) (init : ℚ) :
    bs.foldl
      (fun acc b =>
        let bv := evaluateBonus m b
        if bv > 0 then acc + bv else acc) init = init + bonusTotal m bs := by
  induction bs generalizing init with
  | nil => simp [bonusTotal]
  | cons x xs ih =>
    by_cases h : evaluateBonus m x > 0
    · simp [bonusTotal, List.foldl_cons, h, ih]
      ring
    · simp [bonusTotal, List.foldl_cons, h, ih]

lemma calculateLensScore_eq (m : Metrics) (cfg : LensConfig) :
    calculateLensScore m cfg = roundTo1 (clamp100 (rawLensScore m cfg)) := by
  unfold calculateLensScore
  simp only [foldl_weights_eq, foldl_penalties_eq, foldl_bonuses_eq]
  unfold rawLensScore
  congr 2

/-- C5: for every metrics map and every lens, the lens score is the baseline
60 plus `((value − 50)/50)·weight·20` for each weighted metric whose value is
available, minus each triggered fixed-magnitude penalty, plus each triggered
bonus, clamped to `[0, 100]` (and reported rounded to one decimal). -/
theorem C5_lens_score_formula (m : Metrics) (cfg : LensConfig) :
    calculateLensScore m cfg =
      roundTo1 (clamp100
        (60 +
          (cfg.weights.map fun w =>
            match getMetricValue m w.1 with
            | some v => ((v - 50) / 50) * w.2 * 20
            | none => 0).sum -
          (cfg.penalties.map fun p =>
            let pv := evaluatePenalty m p
            if pv > 0 then pv else 0).sum +
          (cfg.bonuses.map fun b =>
            let bv := evaluateBonus m b
            if bv > 0 then bv else 0).sum)) :=
  calculateLensScore_eq m cfg

/-- C10: the lens score is clamped exactly once, after all weighted
contributions, penalties and bonuses have been accumulated onto the baseline
(so bonuses and penalties apply before clamping), and the returned score
always lies in `[0, 100]` and is a multiple of one tenth. -/
theorem C10_lens_score_clamped_once (m : Metrics) (cfg : LensConfig) :
    calculateLensScore m cfg = roundTo1 (clamp100 (rawLensScore m cfg)) ∧
    0 ≤ calculateLensScore m cfg ∧ calculateLensScore m cfg ≤ 100 ∧
    ∃ k : ℤ, calculateLensScore m cfg = (k : ℚ) / 10 := by
  refine ⟨calculateLensScore_eq m cfg, ?_, ?_,
    ⟨round (10 * clamp100 (rawLensScore m cfg)), ?_⟩⟩
  · rw [calculateLensScore_eq]
    exact roundTo1_clamp100_nonneg _
  · rw [calculateLensScore_eq]
    exact roundTo1_clamp100_le _
  · rw [calculateLensScore_eq]
    rfl

/-! The six static lens configurations of `_define_scoring_lenses`
(tools.py lines 3284-3374). -/

def generalPurposeLens : LensConfig :=
  { weights := [("completeness", 0.30), ("consistency", 0.25), ("balance", 0.15),
      ("cleanliness", 0.15), ("ml_readiness", 0.15)]
    penalties := [⟨"high_missing", 20, 15⟩, ⟨"severe_imbalance", 50, 10⟩,
      ⟨"many_duplicates", 10, 8⟩]
    bonuses := [] }

def anomalyResearchLens : LensConfig :=
  { weights := [("imbalance_presence", 0.35), ("minority_completeness", 0.25),
      ("overall_completeness", 0.15), ("separability", 0.15), ("cleanliness", 0.10)]
    penalties := []
    bonuses := [⟨"high_imbalance", .thresholdGT 10, 25⟩,
      ⟨"extreme_imbalance", .thresholdGT 50, 40⟩] }

def fairnessAuditLens : LensConfig :=
  { weights := [("demographic_presence", 0.30), ("bias_detectability", 0.25),
      ("completeness", 0.20), ("sample_diversity", 0.15), ("feature_richness", 0.10)]
    penalties := []
    bonuses := [⟨"has_demographics", .boolEq true, 30⟩,
      ⟨"imbalance_present", .thresholdGT 2, 20⟩] }

def predictiveModelingLens : LensConfig :=
  { weights := [("ml_performance", 0.30), ("feature_importance", 0.25),
      ("separability", 0.20), ("completeness", 0.15), ("consistency", 0.10)]
    penalties := [⟨"weak_signals", 50, 25⟩, ⟨"poor_separability", 40, 20⟩]
    bonuses := [] }

def robustnessTestingLens : LensConfig :=
  { weights := [("noise_presence", 0.30), ("outlier_presence", 0.25),
      ("missing_patterns", 0.20), ("type_inconsistencies", 0.15),
      ("completeness", 0.10)]
    penalties := []
    bonuses := [⟨"high_outliers", .thresholdGT 10, 20⟩,
      ⟨"missing_data", .thresholdGT 5, 15⟩, ⟨"type_issues", .thresholdGT 2, 10⟩] }

def researchBenchmarkLens : LensConfig :=
  { weights := [("completeness", 0.20), ("documentation", 0.20), ("balance", 0.15),
      ("size_adequacy", 0.15), ("feature_diversity", 0.15), ("reproducibility", 0.15)]
    penalties := []
    bonuses := [⟨"large_sample", .thresholdGT 10000, 15⟩,
      ⟨"balanced_classes", .levelEq "excellent", 20⟩] }

/-! ## Persona Tagging Rule Engine

`DatasetPersonaTaggerTool` (tools.py lines 2931-3187).  Characteristics are
a heterogeneous string-keyed record; each static persona rule is a weighted
set of predicates plus a threshold. -/

/-- A characteristic value: numeric, string or boolean. -/
inductive CharValue
  | num (q : ℚ)
  | str (s : String)
  | bool (b : Bool)
deriving DecidableEq

/-- The flattened characteristics record built by `_extract_characteristics`
(tools.py lines 3067-3135), as an association list. -/
abbrev Characteristics := List (String × CharValue)

/-- `rule_name in characteristics` / `characteristics[rule_name]`. -/
def lookupChar (chars : Characteristics) (k : String) : Option CharValue :=
  (chars.find? fun p => p.1 == k).map fun p => p.2

/-- One predicate of a persona rule: at most one of the comparator keys
`min` / `max` / `value` / `values`, plus a weight. -/
structure PredicateConfig where
  name : String
  cmpMin : Option ℚ
  cmpMax : Option ℚ
  cmpValue : Option CharValue
  cmpValues : Option (List CharValue)
  weight : ℚ

/-- Numeric `char_value >= bound` (the static rules apply `min`/`max` only to
numeric characteristics). -/
def charGE (v : CharValue) (bound : ℚ) : Bool :=
  match v with
  | .num q => bound ≤ q
  | _ => false

/-- Numeric `char_value <= bound`. -/
def charLE (v : CharValue) (bound : ℚ) : Bool :=
  match v with
  | .num q => q ≤ bound
  | _ => false

/-- The comparator checks of `_evaluate_persona_rules` (tools.py lines
3159-3178): the predicate matches when any present comparator key accepts
the characteristic's value. -/
def predicateMatches (v : CharValue) (p : PredicateConfig) : Bool :=
  (match p.cmpMin with | some b => charGE v b | none => false) ||
  (match p.cmpMax with | some b => charLE v b | none => false) ||
  (match p.cmpValue with | some w => v == w | none => false) ||
  (match p.cmpValues with | some ws => ws.contains v | none => false)

/-- A persona rule: named predicates plus a confidence threshold. -/
structure PersonaRule where
  name : String
  predicates : List PredicateConfig
  threshold : ℚ

/-- `_evaluate_persona_rules` (tools.py lines 3137-3187): every predicate's
weight is accumulated into the denominator before the presence check, so an
absent characteristic still counts in the total; the matched weight only
grows for present, matching predicates.  Returns
`(should_tag, round(confidence, 3))`; the tagging decision uses the
unrounded confidence. -/
def evaluatePersonaRules (chars : Characteristics) (rule : PersonaRule) :
    Bool × ℚ :=
  let totalWeight := rule.predicates.foldl (fun acc p => acc + p.weight) 0
  let matchedWeight := rule.predicates.foldl
    (fun acc p =>
      match lookupChar chars p.name with
      | none => acc
      | some v => if predicateMatches v p then acc + p.weight else acc) 0
  let confidence := if totalWeight > 0 then matchedWeight / totalWeight else 0
  (decide (rule.threshold ≤ confidence), roundTo3 confidence)

/-- Sum of all predicate weights of a rule (the code's denominator). -/
def totalRuleWeight (rule : PersonaRule) : ℚ :=
  (rule.predicates.map fun p => p.weight).sum

/-- Sum of the weights of present, matching predicates (the numerator). -/
def matchedRuleWeight (chars : Characteristics) (rule : PersonaRule) : ℚ :=
  ((rule.predicates.filter fun p =>
    match lookupChar chars p.name with
    | some v => predicateMatches v p
    | none => false).map fun p => p.weight).sum

/-- The unrounded confidence the code computes for a rule. -/
def ruleConfidence (chars : Characteristics) (rule : PersonaRule) : ℚ :=
  if totalRuleWeight rule > 0 then
    matchedRuleWeight chars rule / totalRuleWeight rule
  else 0

/-- Modelled from the spec for the C3 comparison: the confidence the spec
sentence ascribes, whose denominator is restricted to the weights of
predicates whose characteristic is present in the record. -/
def specRuleConfidence (chars : Characteristics) (rule : PersonaRule) : ℚ :=
  matchedRuleWeight chars rule /
    ((rule.predicates.filter fun p => (lookupChar chars p.name).isSome).map
      fun p => p.weight).sum

lemma foldl_predWeight (ps : List PredicateConfig) (init : ℚ) :
    ps.foldl (fun acc p => acc + p.weight) init =
      init + (ps.map fun p => p.weight).sum := by
  induction ps generalizing init with
  | nil => simp
  | cons x xs ih => simp [List.foldl_cons, ih]; ring

lemma foldl_matchedWeight (chars : Characteristics) (ps : List PredicateConfig)
    (init : ℚ) :
    ps.foldl
      (fun acc p =>
        match lookupChar chars p.name with
        | none => acc
        | some v => if predicateMatches v p then acc + p.weight else acc)
      init =
      init + ((ps.filter fun p =>
        match lookupChar chars p.name with
        | some v => predicateMatches v p
        | none => false).map fun p => p.weight).sum := by
  induction ps generalizing init with
  | nil => simp
  | cons x xs ih =>
    cases h : lookupChar chars x.name with
    | none => simp [List.foldl_cons, List.filter_cons, h, ih]
    | some v =>
      by_cases hm : predicateMatches v x
      · simp [List.foldl_cons, List.filter_cons, h, hm, ih]
        ring
      · simp [List.foldl_cons, List.filter_cons, h, hm, ih]

lemma evaluatePersonaRules_eq (chars : Characteristics) (rule : PersonaRule) :
    evaluatePersonaRules chars rule =
      (decide (rule.threshold ≤ ruleConfidence chars rule),
       roundTo3 (ruleConfidence chars rule)) := by
  unfold evaluatePersonaRules ruleConfidence totalRuleWeight matchedRuleWeight
  simp only [foldl_predWeight, foldl_matchedWeight, zero_add]

/-- C3 amended: the rule's reported confidence is the matched predicate
weight divided by the total weight of all the rule's predicates — present or
not — (0 when the total weight is not positive), rounded to three decimals;
a rule tags exactly when its threshold is at most that unrounded quotient. -/
theorem C3_rule_confidence_formula (chars : Characteristics) (rule : PersonaRule) :
    (evaluatePersonaRules chars rule).2 =
      roundTo3
        (if (rule.predicates.map fun p => p.weight).sum > 0 then
          matchedRuleWeight chars rule / (rule.predicates.map fun p => p.weight).sum
        else 0) ∧
    ((evaluatePersonaRules chars rule).1 = true ↔
      rule.threshold ≤ ruleConfidence chars rule) := by
  rw [evaluatePersonaRules_eq]
  exact ⟨rfl, decide_eq_true_iff⟩

/-! The ten static persona rules of `_define_persona_rules`
(tools.py lines 2994-3065). -/

def anomalyDetectionRule : PersonaRule :=
  { name := "#AnomalyDetection"
    predicates := [⟨"class_imbalance_ratio", some 10, none, none, none, 0.4⟩,
      ⟨"minority_class_percentage", none, some 5, none, none, 0.3⟩,
      ⟨"outlier_percentage", some 3, none, none, none, 0.2⟩,
      ⟨"data_completeness", some 80, none, none, none, 0.1⟩]
    threshold := 0.6 }

def fraudResearchRule : PersonaRule :=
  { name := "#FraudResearch"
    predicates := [⟨"class_imbalance_ratio", some 20, none, none, none, 0.5⟩,
      ⟨"minority_class_percentage", none, some 2, none, none, 0.3⟩,
      ⟨"data_completeness", some 85, none, none, none, 0.2⟩]
    threshold := 0.7 }

def fairnessAuditRule : PersonaRule :=
  { name := "#FairnessAudit"
    predicates := [⟨"has_demographic_features", none, none, some (.bool true), none, 0.4⟩,
      ⟨"class_balance_level", none, none, none,
        some [.str "imbalanced", .str "severely_imbalanced"], 0.3⟩,
      ⟨"data_completeness", some 70, none, none, none, 0.2⟩,
      ⟨"feature_correlation_issues", some 1, none, none, none, 0.1⟩]
    threshold := 0.5 }

def generalPurposeMLRule : PersonaRule :=
  { name := "#GeneralPurposeML"
    predicates := [⟨"data_completeness", some 90, none, none, none, 0.3⟩,
      ⟨"class_balance_level", none, none, none,
        some [.str "excellent", .str "good", .str "fair"], 0.3⟩,
      ⟨"duplicate_percentage", none, some 2, none, none, 0.2⟩,
      ⟨"outlier_percentage", none, some 5, none, none, 0.2⟩]
    threshold := 0.7 }

def predictiveModelingRule : PersonaRule :=
  { name := "#PredictiveModeling"
    predicates := [⟨"ml_usability_score", some 70, none, none, none, 0.4⟩,
      ⟨"feature_importance_distribution", none, none, none,
        some [.str "medium", .str "low"], 0.3⟩,
      ⟨"data_separability_score", some 60, none, none, none, 0.2⟩,
      ⟨"data_completeness", some 85, none, none, none, 0.1⟩]
    threshold := 0.65 }

def imbalancedLearningRule : PersonaRule :=
  { name := "#ImbalancedLearning"
    predicates := [⟨"class_imbalance_ratio", some 5, none, none, none, 0.4⟩,
      ⟨"minority_class_percentage", none, some 10, none, none, 0.3⟩,
      ⟨"data_completeness", some 75, none, none, none, 0.2⟩,
      ⟨"ml_usability_score", some 50, none, none, none, 0.1⟩]
    threshold := 0.6 }

def modelRobustnessTestingRule : PersonaRule :=
  { name := "#ModelRobustnessTesting"
    predicates := [⟨"outlier_percentage", some 10, none, none, none, 0.4⟩,
      ⟨"missing_percentage", some 5, none, none, none, 0.3⟩,
      ⟨"type_consistency_issues", some 2, none, none, none, 0.2⟩,
      ⟨"duplicate_percentage", some 1, none, none, none, 0.1⟩]
    threshold := 0.5 }

def adversarialTrainingRule : PersonaRule :=
  { name := "#AdversarialTraining"
    predicates := [⟨"outlier_percentage", some 15, none, none, none, 0.5⟩,
      ⟨"feature_correlation_issues", some 3, none, none, none, 0.3⟩,
      ⟨"data_separability_score", none, some 40, none, none, 0.2⟩]
    threshold := 0.6 }

def sociologicalAnalysisRule : PersonaRule :=
  { name := "#SociologicalAnalysis"
    predicates := [⟨"has_demographic_features", none, none, some (.bool true), none, 0.5⟩,
      ⟨"class_balance_level", none, none, none,
        some [.str "imbalanced", .str "severely_imbalanced"], 0.2⟩,
      ⟨"data_completeness", some 60, none, none, none, 0.2⟩,
      ⟨"feature_count", some 10, none, none, none, 0.1⟩]
    threshold := 0.4 }

def dataQualityBenchmarkRule : PersonaRule :=
  { name := "#DataQualityBenchmark"
    predicates := [⟨"missing_percentage", some 20, none, none, none, 0.4⟩,
      ⟨"duplicate_percentage", some 5, none, none, none, 0.3⟩,
      ⟨"type_consistency_issues", some 5, none, none, none, 0.2⟩,
      ⟨"outlier_percentage", some 8, none, none, none, 0.1⟩]
    threshold := 0.5 }

/-- The rule table, in the source's (insertion-ordered) dict order. -/
def personaRulesConfig : List PersonaRule :=
  [anomalyDetectionRule, fraudResearchRule, fairnessAuditRule,
   generalPurposeMLRule, predictiveModelingRule, imbalancedLearningRule,
   modelRobustnessTestingRule, adversarialTrainingRule,
   sociologicalAnalysisRule, dataQualityBenchmarkRule]

/-- C3 counterexample: with only `class_imbalance_ratio = 25` present, the
`#FraudResearch` rule's code confidence is `0.5 / (0.5 + 0.3 + 0.2) = 0.5`,
while the spec's present-predicates-only denominator gives `0.5 / 0.5 = 1`. -/
theorem C3_denominator_counterexample :
    (evaluatePersonaRules [("class_imbalance_ratio", CharValue.num 25)]
        fraudResearchRule).2 = 0.5 ∧
    specRuleConfidence [("class_imbalance_ratio", CharValue.num 25)]
        fraudResearchRule = 1 ∧
    (evaluatePersonaRules [("class_imbalance_ratio", CharValue.num 25)]
        fraudResearchRule).2 ≠
      specRuleConfidence [("class_imbalance_ratio", CharValue.num 25)]
        fraudResearchRule := by
  have hconf : ruleConfidence [("class_imbalance_ratio", CharValue.num 25)]
      fraudResearchRule = 1 / 2 := by
    simp [ruleConfidence, matchedRuleWeight, totalRuleWeight,
      fraudResearchRule, lookupChar, predicateMatches, charGE, charLE,
      List.filter_cons]
    norm_num
  have h1 : (evaluatePersonaRules [("class_imbalance_ratio", CharValue.num 25)]
      fraudResearchRule).2 = roundTo3 (1 / 2) := by
    rw [evaluatePersonaRules_eq, hconf]
  have h2 : roundTo3 ((1 : ℚ) / 2) = 0.5 := by
    unfold roundTo3
    rw [show (1000 : ℚ) * (1 / 2) = ((500 : ℤ) : ℚ) by norm_num, round_intCast]
    norm_num
  have h3 : specRuleConfidence [("class_imbalance_ratio", CharValue.num 25)]
      fraudResearchRule = 1 := by
    simp [specRuleConfidence, matchedRuleWeight, fraudResearchRule,
      lookupChar, predicateMatches, charGE, charLE, List.filter_cons]
    norm_num
  refine ⟨h1.trans h2, h3, ?_⟩
  rw [h1.trans h2, h3]
  norm_num

/-- One tagged persona with its reported (3-decimal) confidence: an entry of
`tag_reasoning` (tools.py lines 2948-2966). -/
structure TaggedPersona where
  name : String
  confidence : ℚ
deriving DecidableEq

/-- The descending-confidence order of
`sorted(tag_reasoning.items(), key=confidence, reverse=True)`. -/
def confGE (a b : TaggedPersona) : Prop := b.confidence ≤ a.confidence

/-- Insert into a descending-sorted list, before the first entry of equal or
smaller confidence (so earlier-inserted personas stay first among equal
confidences, as in Python's stable sort). -/
def insertByConf (t : TaggedPersona) : List TaggedPersona → List TaggedPersona
  | [] => [t]
  | u :: rest =>
    if u.confidence ≤ t.confidence then t :: u :: rest
    else u :: insertByConf t rest

/-- Stable sort by confidence descending (tools.py line 2969). -/
def sortByConfDesc : List TaggedPersona → List TaggedPersona
  | [] => []
  | t :: rest => insertByConf t (sortByConfDesc rest)

lemma mem_insertByConf {u t : TaggedPersona} :
    ∀ {l : List TaggedPersona}, u ∈ insertByConf t l ↔ u = t ∨ u ∈ l := by
  intro l
  induction l with
  | nil => simp [insertByConf]
  | cons x xs ih =>
    by_cases h : x.confidence ≤ t.confidence
    · simp [insertByConf, h, List.mem_cons]
    · simp only [insertByConf, if_neg h, List.mem_cons, ih]
      tauto

lemma mem_sortByConfDesc {u : TaggedPersona} :
    ∀ {l : List TaggedPersona}, u ∈ sortByConfDesc l ↔ u ∈ l := by
  intro l
  induction l with
  | nil => simp [sortByConfDesc]
  | cons x xs ih => simp [sortByConfDesc, mem_insertByConf, ih]

lemma insertByConf_sorted {t : TaggedPersona} {l : List TaggedPersona}
    (hl : List.Sorted confGE l) : List.Sorted confGE (insertByConf t l) := by
  induction l with
  | nil => simp [insertByConf, List.sorted_singleton]
  | cons x xs ih =>
    rw [List.sorted_cons] at hl
    obtain ⟨hx, hxs⟩ := hl
    by_cases h : x.confidence ≤ t.confidence
    · rw [insertByConf, if_pos h, List.sorted_cons]
      constructor
      · intro b hb
        rcases List.mem_cons.mp hb with rfl | hb'
        · exact h
        · exact le_trans (hx b hb') h
      · rw [List.sorted_cons]
        exact ⟨hx, hxs⟩
    · rw [insertByConf, if_neg h, List.sorted_cons]
      refine ⟨?_, ih hxs⟩
      intro b hb
      rcases mem_insertByConf.mp hb with rfl | hb'
      · exact le_of_lt (lt_of_not_le h)
      · exact hx b hb'

lemma sortByConfDesc_sorted : ∀ l : List TaggedPersona,
    List.Sorted confGE (sortByConfDesc l) := by
  intro l
  induction l with
  | nil => simp [sortByConfDesc]
  | cons x xs ih => exact insertByConf_sorted ih

lemma insertByConf_ne_nil {t : TaggedPersona} {l : List TaggedPersona} :
    insertByConf t l ≠ [] := by
  cases l with
  | nil => simp [insertByConf]
  | cons x xs =>
    rw [insertByConf]
    split_ifs <;> simp

lemma sortByConfDesc_ne_nil {l : List TaggedPersona} (h : l ≠ []) :
    sortByConfDesc l ≠ [] := by
  cases l with
  | nil => exact absurd rfl h
  | cons x xs =>
    rw [sortByConfDesc]
    exact insertByConf_ne_nil

lemma sortByConfDesc_head_max {l : List TaggedPersona} (h : l ≠ []) :
    ∃ t, (sortByConfDesc l).head? = some t ∧ t ∈ l ∧
      ∀ u ∈ l, u.confidence ≤ t.confidence := by
  cases hs : sortByConfDesc l with
  | nil => exact absurd hs (sortByConfDesc_ne_nil h)
  | cons t rest =>
    refine ⟨t, by simp, ?_, ?_⟩
    · exact mem_sortByConfDesc.mp (hs ▸ List.mem_cons_self t rest)
    · intro u hu
      have hu' : u ∈ sortByConfDesc l := mem_sortByConfDesc.mpr hu
      rw [hs] at hu'
      rcases List.mem_cons.mp hu' with rfl | hu''
      · exact le_refl _
      · have hsorted := sortByConfDesc_sorted l
        rw [hs] at hsorted
        exact List.rel_of_sorted_cons hsorted u hu''

/-- The tag list built by the rule loop of
`DatasetPersonaTaggerTool.execute` (tools.py lines 2948-2958): one tagged
persona, in rule-definition order, for each rule whose evaluation tags. -/
def taggedList (chars : Characteristics) : List TaggedPersona :=
  personaRulesConfig.filterMap fun rule =>
    if (evaluatePersonaRules chars rule).1 then
      some ⟨rule.name, (evaluatePersonaRules chars rule).2⟩
    else none

/-- The default applied when no rule tags (tools.py lines 2960-2966). -/
def taggedWithDefault (chars : Characteristics) : List TaggedPersona :=
  if (taggedList chars).isEmpty then [⟨"#GeneralPurposeML", 0.7⟩]
  else taggedList chars

/-- The tagger's result fields relevant here (tools.py lines 2971-2979):
`persona_tags` keeps the rule loop's order; only the primary persona is read
off the confidence-sorted list. -/
structure TaggerOutput where
  success : Bool
  personaTags : List String
  taggedPersonas : List TaggedPersona
  primaryPersona : String

/-- `DatasetPersonaTaggerTool.execute` (tools.py lines 2941-2982). -/
def personaTaggerExecute (chars : Characteristics) : TaggerOutput :=
  { success := true
    personaTags := (taggedWithDefault chars).map fun t => t.name
    taggedPersonas := taggedWithDefault chars
    primaryPersona :=
      (((sortByConfDesc (taggedWithDefault chars)).head?).map fun t =>
        t.name).getD "#GeneralPurposeML" }

lemma personaRuleNames_nodup :
    ((personaRulesConfig.map fun r => r.name).Nodup) := by
  simp [personaRulesConfig, anomalyDetectionRule, fraudResearchRule,
    fairnessAuditRule, generalPurposeMLRule, predictiveModelingRule,
    imbalancedLearningRule, modelRobustnessTestingRule,
    adversarialTrainingRule, sociologicalAnalysisRule,
    dataQualityBenchmarkRule]

lemma mem_taggedList_names_iff (chars : Characteristics) {rule : PersonaRule}
    (hr : rule ∈ personaRulesConfig) :
    rule.name ∈ ((taggedList chars).map fun t => t.name) ↔
      (evaluatePersonaRules chars rule).1 = true := by
  constructor
  · intro h
    obtain ⟨t, ht, hname⟩ := List.mem_map.mp h
    obtain ⟨r, hrmem, hfr⟩ := List.mem_filterMap.mp ht
    by_cases he : (evaluatePersonaRules chars r).1
    · rw [if_pos he] at hfr
      have hteq : t = ⟨r.name, (evaluatePersonaRules chars r).2⟩ :=
        (Option.some_injective _ hfr).symm
      have hnames : r.name = rule.name := by
        rw [← hname, hteq]
      have : r = rule :=
        List.inj_on_of_nodup_map personaRuleNames_nodup hrmem hr hnames
      rw [← this]
      exact he
    · rw [if_neg he] at hfr
      cases hfr
  · intro h
    refine List.mem_map.mpr ⟨⟨rule.name, (evaluatePersonaRules chars rule).2⟩,
      ?_, rfl⟩
    exact List.mem_filterMap.mpr ⟨rule, hr, by rw [if_pos h]⟩

/-- C6 amended: a configured rule's persona appears among the tags exactly
when its confidence clears its threshold (the tag list keeps rule-definition
order rather than being confidence-sorted); when no rule clears its
threshold, exactly the one default `#GeneralPurposeML` tag with confidence
0.7 is emitted; and the primary persona is a tagged persona of maximal
confidence (the head of the confidence-descending sort). -/
theorem C6_tagging_threshold_default_primary (chars : Characteristics) :
    ((∃ r ∈ personaRulesConfig, (evaluatePersonaRules chars r).1 = true) →
      ∀ rule ∈ personaRulesConfig,
        (rule.name ∈ (personaTaggerExecute chars).personaTags ↔
          rule.threshold ≤ ruleConfidence chars rule)) ∧
    ((∀ r ∈ personaRulesConfig, (evaluatePersonaRules chars r).1 = false) →
      (personaTaggerExecute chars).taggedPersonas =
        [⟨"#GeneralPurposeML", 0.7⟩] ∧
      (personaTaggerExecute chars).personaTags = ["#GeneralPurposeML"]) ∧
    ∃ t ∈ (personaTaggerExecute chars).taggedPersonas,
      t.name = (personaTaggerExecute chars).primaryPersona ∧
      ∀ u ∈ (personaTaggerExecute chars).taggedPersonas,
        u.confidence ≤ t.confidence := by
  refine ⟨?_, ?_, ?_⟩
  · rintro ⟨r0, hr0, htag0⟩ rule hrule
    have hmem0 : (⟨r0.name, (evaluatePersonaRules chars r0).2⟩ : TaggedPersona) ∈
        taggedList chars :=
      List.mem_filterMap.mpr ⟨r0, hr0, by rw [if_pos htag0]⟩
    have hne : (taggedList chars).isEmpty = false := by
      cases he : taggedList chars with
      | nil => rw [he] at hmem0; cases hmem0
      | cons a l => rfl
    have hwd : taggedWithDefault chars = taggedList chars := by
      simp [taggedWithDefault, hne]
    have hshow : (personaTaggerExecute chars).personaTags =
        (taggedWithDefault chars).map fun t => t.name := rfl
    rw [hshow, hwd, mem_taggedList_names_iff chars hrule,
      evaluatePersonaRules_eq]
    simp [decide_eq_true_iff]
  · intro hall
    have hnil : taggedList chars = [] := by
      refine List.filterMap_eq_nil_iff.mpr fun r hr => ?_
      rw [hall r hr]
      rfl
    have hwd : taggedWithDefault chars = [⟨"#GeneralPurposeML", 0.7⟩] := by
      simp [taggedWithDefault, hnil]
    constructor
    · show taggedWithDefault chars = _
      rw [hwd]
    · show (taggedWithDefault chars).map (fun t => t.name) = _
      rw [hwd]
      rfl
  · have hne : taggedWithDefault chars ≠ [] := by
      unfold taggedWithDefault
      split_ifs with h
      · simp
      · intro hc
        rw [hc] at h
        exact h rfl
    obtain ⟨t, hhead, htmem, hmax⟩ := sortByConfDesc_head_max hne
    refine ⟨t, htmem, ?_, hmax⟩
    show t.name =
      (((sortByConfDesc (taggedWithDefault chars)).head?).map fun t =>
        t.name).getD "#GeneralPurposeML"
    rw [hhead]
    rfl

lemma roundTo3_int_mul {x : ℚ} {k : ℤ} (h : 1000 * x = (k : ℚ)) :
    roundTo3 x = (k : ℚ) / 1000 := by
  unfold roundTo3
  rw [h, round_intCast]

lemma evaluatePersonaRules_true (chars : Characteristics) (rule : PersonaRule)
    (c : ℚ) (hc : ruleConfidence chars rule = c) (h : rule.threshold ≤ c) :
    evaluatePersonaRules chars rule = (true, roundTo3 c) := by
  rw [evaluatePersonaRules_eq, hc]
  simp only [Prod.mk.injEq]
  exact ⟨decide_eq_true h, trivial⟩

lemma evaluatePersonaRules_false (chars : Characteristics) (rule : PersonaRule)
    (c : ℚ) (hc : ruleConfidence chars rule = c) (h : ¬ rule.threshold ≤ c) :
    evaluatePersonaRules chars rule = (false, roundTo3 c) := by
  rw [evaluatePersonaRules_eq, hc]
  simp only [Prod.mk.injEq]
  exact ⟨decide_eq_false h, trivial⟩

/-- A concrete characteristics record on which four persona rules fire with
confidences 0.8, 1.0, 0.9 and 0.9 in rule-definition order. -/
def c6chars : Characteristics :=
  [("class_imbalance_ratio", .num 15), ("minority_class_percentage", .num 4),
   ("outlier_percentage", .num 0), ("data_completeness", .num 90),
   ("has_demographic_features", .bool true),
   ("class_balance_level", .str "imbalanced"),
   ("feature_correlation_issues", .num 2)]

/-- C6 counterexample: on `c6chars` the emitted tag list carries confidences
`[0.8, 1.0, 0.9, 0.9]` — rule-definition order, not sorted by confidence
descending as the claim states — while the primary persona is still the
maximal-confidence tag `#FairnessAudit`. -/
theorem C6_tags_not_sorted_counterexample :
    ((personaTaggerExecute c6chars).taggedPersonas.map fun t => t.confidence) =
      [0.8, 1, 0.9, 0.9] ∧
    ¬ List.Sorted (fun a b : ℚ => b ≤ a)
      ((personaTaggerExecute c6chars).taggedPersonas.map fun t =>
        t.confidence) ∧
    (personaTaggerExecute c6chars).primaryPersona = "#FairnessAudit" := by
  have r08 : roundTo3 ((4 : ℚ) / 5) = 0.8 := by
    rw [roundTo3_int_mul (by norm_num : (1000 : ℚ) * (4 / 5) = ((800 : ℤ) : ℚ))]
    norm_num
  have r1 : roundTo3 (1 : ℚ) = 1 := by
    rw [roundTo3_int_mul (by norm_num : (1000 : ℚ) * 1 = ((1000 : ℤ) : ℚ))]
    norm_num
  have r09 : roundTo3 ((9 : ℚ) / 10) = 0.9 := by
    rw [roundTo3_int_mul (by norm_num : (1000 : ℚ) * (9 / 10) = ((900 : ℤ) : ℚ))]
    norm_num
  have eA : evaluatePersonaRules c6chars anomalyDetectionRule =
      (true, roundTo3 (4 / 5)) := by
    refine evaluatePersonaRules_true _ _ _ ?_ (by norm_num [anomalyDetectionRule])
    simp [ruleConfidence, matchedRuleWeight, totalRuleWeight,
      anomalyDetectionRule, c6chars, lookupChar, predicateMatches, charGE,
      charLE, List.filter_cons]
    try norm_num
  have eB : evaluatePersonaRules c6chars fraudResearchRule =
      (false, roundTo3 (1 / 5)) := by
    refine evaluatePersonaRules_false _ _ _ ?_ (by norm_num [fraudResearchRule])
    simp [ruleConfidence, matchedRuleWeight, totalRuleWeight,
      fraudResearchRule, c6chars, lookupChar, predicateMatches, charGE,
      charLE, List.filter_cons]
    try norm_num
  have eC : evaluatePersonaRules c6chars fairnessAuditRule =
      (true, roundTo3 1) := by
    refine evaluatePersonaRules_true _ _ _ ?_ (by norm_num [fairnessAuditRule])
    simp [ruleConfidence, matchedRuleWeight, totalRuleWeight,
      fairnessAuditRule, c6chars, lookupChar, predicateMatches, charGE,
      charLE, List.filter_cons]
    try norm_num
  have eD : evaluatePersonaRules c6chars generalPurposeMLRule =
      (false, roundTo3 (1 / 2)) := by
    refine evaluatePersonaRules_false _ _ _ ?_ (by norm_num [generalPurposeMLRule])
    simp [ruleConfidence, matchedRuleWeight, totalRuleWeight,
      generalPurposeMLRule, c6chars, lookupChar, predicateMatches, charGE,
      charLE, List.filter_cons]
    try norm_num
  have eE : evaluatePersonaRules c6chars predictiveModelingRule =
      (false, roundTo3 (1 / 10)) := by
    refine evaluatePersonaRules_false _ _ _ ?_ (by norm_num [predictiveModelingRule])
    simp [ruleConfidence, matchedRuleWeight, totalRuleWeight,
      predictiveModelingRule, c6chars, lookupChar, predicateMatches, charGE,
      charLE, List.filter_cons]
    try norm_num
  have eF : evaluatePersonaRules c6chars imbalancedLearningRule =
      (true, roundTo3 (9 / 10)) := by
    refine evaluatePersonaRules_true _ _ _ ?_ (by norm_num [imbalancedLearningRule])
    simp [ruleConfidence, matchedRuleWeight, totalRuleWeight,
      imbalancedLearningRule, c6chars, lookupChar, predicateMatches, charGE,
      charLE, List.filter_cons]
    try norm_num
  have eG : evaluatePersonaRules c6chars modelRobustnessTestingRule =
      (false, roundTo3 0) := by
    refine evaluatePersonaRules_false _ _ _ ?_ (by norm_num [modelRobustnessTestingRule])
    simp [ruleConfidence, matchedRuleWeight, totalRuleWeight,
      modelRobustnessTestingRule, c6chars, lookupChar, predicateMatches,
      charGE, charLE, List.filter_cons]
    try norm_num
  have eH : evaluatePersonaRules c6chars adversarialTrainingRule =
      (false, roundTo3 0) := by
    refine evaluatePersonaRules_false _ _ _ ?_ (by norm_num [adversarialTrainingRule])
    simp [ruleConfidence, matchedRuleWeight, totalRuleWeight,
      adversarialTrainingRule, c6chars, lookupChar, predicateMatches, charGE,
      charLE, List.filter_cons]
    try norm_num
  have eI : evaluatePersonaRules c6chars sociologicalAnalysisRule =
      (true, roundTo3 (9 / 10)) := by
    refine evaluatePersonaRules_true _ _ _ ?_ (by norm_num [sociologicalAnalysisRule])
    simp [ruleConfidence, matchedRuleWeight, totalRuleWeight,
      sociologicalAnalysisRule, c6chars, lookupChar, predicateMatches, charGE,
      charLE, List.filter_cons]
    try norm_num
  have eJ : evaluatePersonaRules c6chars dataQualityBenchmarkRule =
      (false, roundTo3 0) := by
    refine evaluatePersonaRules_false _ _ _ ?_ (by norm_num [dataQualityBenchmarkRule])
    simp [ruleConfidence, matchedRuleWeight, totalRuleWeight,
      dataQualityBenchmarkRule, c6chars, lookupChar, predicateMatches, charGE,
      charLE, List.filter_cons]
    try norm_num
  have htagged : taggedList c6chars =
      [⟨"#AnomalyDetection", roundTo3 (4 / 5)⟩, ⟨"#FairnessAudit", roundTo3 1⟩,
       ⟨"#ImbalancedLearning", roundTo3 (9 / 10)⟩,
       ⟨"#SociologicalAnalysis", roundTo3 (9 / 10)⟩] := by
    unfold taggedList personaRulesConfig
    simp [List.filterMap_cons, eA, eB, eC, eD, eE, eF, eG, eH, eI, eJ]
    simp [anomalyDetectionRule, fairnessAuditRule, imbalancedLearningRule,
      sociologicalAnalysisRule]
  have hwd : taggedWithDefault c6chars =
      [⟨"#AnomalyDetection", roundTo3 (4 / 5)⟩, ⟨"#FairnessAudit", roundTo3 1⟩,
       ⟨"#ImbalancedLearning", roundTo3 (9 / 10)⟩,
       ⟨"#SociologicalAnalysis", roundTo3 (9 / 10)⟩] := by
    simp [taggedWithDefault, htagged]
  have h1 : ((personaTaggerExecute c6chars).taggedPersonas.map fun t =>
      t.confidence) = [0.8, 1, 0.9, 0.9] := by
    show ((taggedWithDefault c6chars).map fun t => t.confidence) = _
    rw [hwd]
    simp [r08, r1, r09]
  refine ⟨h1, ?_, ?_⟩
  · rw [h1]
    intro hs
    have hb : (1 : ℚ) ≤ 0.8 :=
      List.rel_of_sorted_cons hs 1 (List.mem_cons_self 1 [0.9, 0.9])
    norm_num at hb
  · show (((sortByConfDesc (taggedWithDefault c6chars)).head?).map fun t =>
      t.name).getD "#GeneralPurposeML" = "#FairnessAudit"
    rw [hwd]
    simp only [r08, r1, r09]
    norm_num [sortByConfDesc, insertByConf]

/-! ## Pipeline abort

`EnhancedValidationAgent._perform_complete_analysis`
(enhanced_validation_agent.py lines 195-300) and `_create_error_result`
(lines 560-574). -/

/-- The pipeline result fields C7 concerns.  The agent's error result model
carries no numeric score fields; the response schema's score fields keep
their 0.0 defaults (message_models.py lines 60-62), modelled here by the two
score components set to 0 on the abort path. -/
structure PipelineResult where
  success : Bool
  errors : List String
  personaTags : List String
  personaTaggingRan : Bool
  contextualScoringRan : Bool
  overallUtilityScore : ℚ
  dataIntegrityScore : ℚ

/-- `_perform_complete_analysis` after the foundational bank has produced
`foundational` (tool name, success flag): when the failed count exceeds
`len(results) // 2` the pipeline returns the error result before persona
tagging and contextual scoring are invoked; otherwise both run and the
synthesizer's reported scores are delivered.  `chars` and `contextualScores`
stand for the data the downstream stages would consume. -/
def performCompleteAnalysis (foundational : List (String × Bool))
    (r : AnalysisResults) (chars : Characteristics)
    (contextualScores : List (String × ℚ)) : PipelineResult :=
  if ((foundational.filter fun t => !t.2).map fun t => t.1).length >
      foundational.length / 2 then
    { success := false
      errors := ["Too many analysis tools failed: " ++
        String.intercalate ", "
          ((foundational.filter fun t => !t.2).map fun t => t.1)]
      personaTags := []
      personaTaggingRan := false
      contextualScoringRan := false
      overallUtilityScore := 0
      dataIntegrityScore := 0 }
  else
    { success := (synthesizerExecute r contextualScores).success
      errors := []
      personaTags := (personaTaggerExecute chars).personaTags
      personaTaggingRan := true
      contextualScoringRan := true
      overallUtilityScore := (synthesizerExecute r contextualScores).overallUtilityScore
      dataIntegrityScore := (synthesizerExecute r contextualScores).dataIntegrityScore }

/-- C7: whenever more than half of the foundational analyzer results have
`success = false`, the pipeline aborts before persona tagging and contextual
scoring run and returns a failure result: `success = false`, a non-empty
error list, and both delivered scores 0. -/
theorem C7_pipeline_abort (foundational : List (String × Bool))
    (r : AnalysisResults) (chars : Characteristics) (cs : List (String × ℚ))
    (h : 2 * (foundational.filter fun t => !t.2).length > foundational.length) :
    (performCompleteAnalysis foundational r chars cs).success = false ∧
    (performCompleteAnalysis foundational r chars cs).errors ≠ [] ∧
    (performCompleteAnalysis foundational r chars cs).personaTaggingRan = false ∧
    (performCompleteAnalysis foundational r chars cs).contextualScoringRan = false ∧
    (performCompleteAnalysis foundational r chars cs).overallUtilityScore = 0 ∧
    (performCompleteAnalysis foundational r chars cs).dataIntegrityScore = 0 := by
  have hcond : ((foundational.filter fun t => !t.2).map fun t => t.1).length >
      foundational.length / 2 := by
    rw [List.length_map]
    omega
  unfold performCompleteAnalysis
  rw [if_pos hcond]
  exact ⟨rfl, by simp, rfl, rfl, rfl, rfl⟩

/-- Witness for C7: three foundational results of which two failed. -/
theorem C7_pipeline_abort_witness :
    2 * (([("missing_value_analysis", false), ("duplicate_analysis", false),
        ("data_profiler", true)] : List (String × Bool)).filter fun t =>
        !t.2).length >
      ([("missing_value_analysis", false), ("duplicate_analysis", false),
        ("data_profiler", true)] : List (String × Bool)).length ∧
    ((performCompleteAnalysis
        [("missing_value_analysis", false), ("duplicate_analysis", false),
         ("data_profiler", true)] ⟨none, none, none⟩ [] []).success = false ∧
      (performCompleteAnalysis
        [("missing_value_analysis", false), ("duplicate_analysis", false),
         ("data_profiler", true)] ⟨none, none, none⟩ [] []).errors ≠ [] ∧
      (performCompleteAnalysis
        [("missing_value_analysis", false), ("duplicate_analysis", false),
         ("data_profiler", true)] ⟨none, none, none⟩ [] []).personaTaggingRan = false ∧
      (performCompleteAnalysis
        [("missing_value_analysis", false), ("duplicate_analysis", false),
         ("data_profiler", true)] ⟨none, none, none⟩ [] []).contextualScoringRan = false ∧
      (performCompleteAnalysis
        [("missing_value_analysis", false), ("duplicate_analysis", false),
         ("data_profiler", true)] ⟨none, none, none⟩ [] []).overallUtilityScore = 0 ∧
      (performCompleteAnalysis
        [("missing_value_analysis", false), ("duplicate_analysis", false),
         ("data_profiler", true)] ⟨none, none, none⟩ [] []).dataIntegrityScore = 0) :=
  ⟨by decide,
   C7_pipeline_abort
     [("missing_value_analysis", false), ("duplicate_analysis", false),
      ("data_profiler", true)] ⟨none, none, none⟩ [] [] (by decide)⟩

/-! ## Readiness assessment

`UtilityScoreSynthesizerTool._assess_readiness` (tools.py lines 3966-3991). -/

/-- The readiness flags and the primary readiness state. -/
structure ReadinessAssessment where
  researchReady : Bool
  productionReady : Bool
  publicationReady : Bool
  immediateUse : Bool
  preprocessingRequired : Bool
  majorImprovementsNeeded : Bool
  primaryState : String

/-- `_assess_readiness`. -/
def assessReadiness (integrity overall : ℚ) : ReadinessAssessment :=
  { researchReady := decide (60 ≤ overall)
    productionReady := decide (75 ≤ overall) && decide (80 ≤ integrity)
    publicationReady := decide (70 ≤ overall) && decide (75 ≤ integrity)
    immediateUse := decide (80 ≤ overall)
    preprocessingRequired := decide (overall < 70)
    majorImprovementsNeeded := decide (overall < 50)
    primaryState :=
      if 80 ≤ overall then "immediate_use"
      else if 75 ≤ overall ∧ 80 ≤ integrity then "production_ready"
      else if 60 ≤ overall then "research_ready"
      else if overall < 70 then "preprocessing_required"
      else "major_improvements_needed" }

/-- The first state of a priority list whose flag holds, else the fallback:
the spec's "primary state chosen by priority order". -/
def firstReadyState : List (String × Bool) → String → String
  | [], fallback => fallback
  | (s, b) :: rest, fallback =>
    if b then s else firstReadyState rest fallback

/-- C8: the four readiness flags hold exactly at their documented score
thresholds, and the primary readiness state is the first, in the priority
order immediate_use > production_ready > research_ready >
preprocessing_required, whose flag holds, with major_improvements_needed as
the fallback. -/
theorem C8_readiness_flags_and_priority (integrity overall : ℚ) :
    ((assessReadiness integrity overall).researchReady = true ↔ 60 ≤ overall) ∧
    ((assessReadiness integrity overall).productionReady = true ↔
      75 ≤ overall ∧ 80 ≤ integrity) ∧
    ((assessReadiness integrity overall).publicationReady = true ↔
      70 ≤ overall ∧ 75 ≤ integrity) ∧
    ((assessReadiness integrity overall).immediateUse = true ↔ 80 ≤ overall) ∧
    (assessReadiness integrity overall).primaryState =
      firstReadyState
        [("immediate_use", (assessReadiness integrity overall).immediateUse),
         ("production_ready", (assessReadiness integrity overall).productionReady),
         ("research_ready", (assessReadiness integrity overall).researchReady),
         ("preprocessing_required",
           (assessReadiness integrity overall).preprocessingRequired)]
        "major_improvements_needed" := by
  refine ⟨by simp [assessReadiness], by simp [assessReadiness],
    by simp [assessReadiness], by simp [assessReadiness], ?_⟩
  simp only [assessReadiness, firstReadyState]
  by_cases h1 : 80 ≤ overall <;>
    by_cases h2 : 75 ≤ overall ∧ 80 ≤ integrity <;>
      by_cases h3 : 60 ≤ overall <;>
        by_cases h4 : overall < 70 <;>
          simp [h1, h2, h3, h4]

end DatasetScoring
